import Mathlib

/-!
Verification of the MCS-Chatbot retrieval-augmented answering pipeline.

The repository consists of a Supabase SQL setup (src/backend/supabase_setup.sql)
defining the vector table and the similarity-search function, and a React
frontend (chat interface, input box, API helper).  The definitions below are a
shallow embedding of that code: the SQL query logic of match_documents is
translated row-by-row, the frontend handlers are translated from the JSX
source, and the parts of the backend pipeline that the repository documents but
whose Python sources are absent (chunker, answer generator, query orchestrator)
are modelled from the specification and marked as such.
-/

/-- Dimensionality of the pgvector column: the table declares
embedding vector(384) (all-MiniLM-L6-v2 output size). -/
def EMBEDDING_DIM : Nat := 384

/-- A stored or query embedding: a rational-valued vector of the fixed
dimension 384, as enforced by the vector(384) column and the
query_embedding vector(384) parameter of match_documents. -/
def Embedding : Type := { l : List ℚ // l.length = EMBEDDING_DIM }

/-- One row of the mcs_documents table: id BIGSERIAL, content TEXT,
metadata JSONB (kept opaque), embedding vector(384). -/
structure MDRow where
  id : Int
  content : String
  metadata : Option String
  embedding : Embedding

/-- One row of the result table of match_documents:
(id bigint, content text, metadata jsonb, similarity float). -/
structure MatchRow where
  id : Int
  content : String
  metadata : Option String
  similarity : ℚ

/-- Shallow embedding of the match_documents SQL function of
src/backend/supabase_setup.sql.  The pgvector cosine-distance operator
on embeddings is an external capability of the store and is passed in as
opDist.  The body mirrors the query: SELECT id, content, metadata,
1 - (embedding opDist query_embedding) AS similarity FROM mcs_documents
WHERE 1 - (embedding opDist query_embedding) > match_threshold
ORDER BY embedding opDist query_embedding LIMIT match_count
(the ORDER BY is realised by a stable sort on the distance). -/
def match_documents (rows : List MDRow) (opDist : Embedding → Embedding → ℚ)
    (query_embedding : Embedding) (match_threshold : ℚ) (match_count : Nat) :
    List MatchRow :=
  ((List.insertionSort
      (fun a b => opDist a.embedding query_embedding ≤ opDist b.embedding query_embedding)
      (rows.filter
        (fun r => match_threshold < 1 - opDist r.embedding query_embedding))).map
    (fun r => ⟨r.id, r.content, r.metadata,
      1 - opDist r.embedding query_embedding⟩)).take match_count

/-- Default value of match_threshold in the SQL function signature:
match_threshold float DEFAULT 0.5. -/
def defaultMatchThreshold : ℚ := 1 / 2

/-- Default value of match_count in the SQL function signature:
match_count int DEFAULT 3. -/
def defaultMatchCount : Nat := 3

/-- match_documents invoked with its declared SQL default arguments. -/
def match_documents_defaults (rows : List MDRow)
    (opDist : Embedding → Embedding → ℚ) (query_embedding : Embedding) :
    List MatchRow :=
  match_documents rows opDist query_embedding defaultMatchThreshold defaultMatchCount

/-- C1: for every query vector, threshold, and top_k, the search operation
implemented by match_documents returns at most top_k matches, every returned
match has similarity strictly greater than the threshold, and the returned
sequence is ordered by descending similarity. -/
theorem match_documents_search_contract (rows : List MDRow)
    (opDist : Embedding → Embedding → ℚ) (q : Embedding)
    (threshold : ℚ) (count : Nat) :
    (match_documents rows opDist q threshold count).length ≤ count ∧
    (∀ m ∈ match_documents rows opDist q threshold count,
      threshold < m.similarity) ∧
    (match_documents rows opDist q threshold count).Pairwise
      (fun a b => b.similarity ≤ a.similarity) := by
  refine ⟨?_, ?_, ?_⟩
  · simp [match_documents]
  · intro m hm
    have hm' := List.mem_of_mem_take hm
    rcases List.mem_map.mp hm' with ⟨r, hr, rfl⟩
    have hr' : r ∈ rows.filter
        (fun r => decide (threshold < 1 - opDist r.embedding q)) :=
      ((List.perm_insertionSort _ _).mem_iff).mp hr
    have := (List.mem_filter.mp hr').2
    simpa using of_decide_eq_true this
  · have hs : (List.insertionSort
        (fun a b => opDist a.embedding q ≤ opDist b.embedding q)
        (rows.filter (fun r => threshold < 1 - opDist r.embedding q))).Sorted
        (fun a b => opDist a.embedding q ≤ opDist b.embedding q) := by
      haveI : IsTotal MDRow
          (fun a b => opDist a.embedding q ≤ opDist b.embedding q) :=
        ⟨fun a b => le_total _ _⟩
      haveI : IsTrans MDRow
          (fun a b => opDist a.embedding q ≤ opDist b.embedding q) :=
        ⟨fun _ _ _ hab hbc => le_trans hab hbc⟩
      exact List.sorted_insertionSort _ _
    have hmap : ((List.insertionSort
        (fun a b => opDist a.embedding q ≤ opDist b.embedding q)
        (rows.filter (fun r => threshold < 1 - opDist r.embedding q))).map
        (fun r => (⟨r.id, r.content, r.metadata,
          1 - opDist r.embedding q⟩ : MatchRow))).Pairwise
        (fun a b => b.similarity ≤ a.similarity) := by
      refine List.pairwise_map.mpr (hs.imp ?_)
      intro a b hab
      simpa using by linarith
    exact List.Pairwise.sublist (List.take_sublist _ _) hmap

/-- C4: when no stored vector clears the threshold, match_documents returns the
empty list (WHERE filters out every row) rather than failing: an empty result
is an ordinary value, distinguishable from a connection failure. -/
theorem match_documents_empty_when_none_clear (rows : List MDRow)
    (opDist : Embedding → Embedding → ℚ) (q : Embedding)
    (threshold : ℚ) (count : Nat)
    (h : ∀ r ∈ rows, 1 - opDist r.embedding q ≤ threshold) :
    match_documents rows opDist q threshold count = [] := by
  have hf : rows.filter
      (fun r => decide (threshold < 1 - opDist r.embedding q)) = [] := by
    refine List.filter_eq_nil_iff.mpr ?_
    intro r hr
    simpa using not_lt.mpr (h r hr)
  simp [match_documents, hf]

/-- A concrete 384-dimensional embedding used as an evaluation input. -/
def sampleEmbedding : Embedding :=
  ⟨List.replicate EMBEDDING_DIM 0, List.length_replicate _ _⟩

/-- A concrete stored row used as an evaluation input. -/
def sampleRow : MDRow :=
  ⟨1, "section 1", none, sampleEmbedding⟩

/-- Witness for C4: with one stored row at cosine distance 1 from the query
(similarity 0), nothing clears the default threshold 1/2 and the result is
empty. -/
theorem match_documents_empty_when_none_clear_witness :
    (∀ r ∈ [sampleRow], 1 - (fun _ _ => (1 : ℚ)) r.embedding sampleEmbedding ≤ 1 / 2) ∧
    match_documents [sampleRow] (fun _ _ => (1 : ℚ)) sampleEmbedding (1 / 2) 3 = [] := by
  have h : ∀ r ∈ [sampleRow],
      1 - (fun _ _ => (1 : ℚ)) r.embedding sampleEmbedding ≤ 1 / 2 := by
    intro r _
    norm_num
  exact ⟨h, match_documents_empty_when_none_clear [sampleRow] _ sampleEmbedding (1 / 2) 3 h⟩

/-- C5: every stored chunk embedding and every query embedding accepted by the
search function has the one fixed dimensionality 384: the table column is
vector(384) and the query parameter of match_documents is vector(384), so no
operation can store or query a vector of a different dimension. -/
theorem embedding_dimension_invariant :
    EMBEDDING_DIM = 384 ∧
    (∀ r : MDRow, r.embedding.val.length = 384) ∧
    (∀ q : Embedding, q.val.length = 384) := by
  refine ⟨rfl, ?_, ?_⟩
  · intro r
    exact r.embedding.property
  · intro q
    exact q.property

/-- C9: when threshold and top_k are not supplied, the SQL function defaults
to match_threshold = 0.5 and match_count = 3, matching the declared defaults
of retrieve. -/
theorem match_documents_default_arguments :
    defaultMatchThreshold = 1 / 2 ∧ defaultMatchCount = 3 ∧
    ∀ (rows : List MDRow) (opDist : Embedding → Embedding → ℚ) (q : Embedding),
      match_documents_defaults rows opDist q =
        match_documents rows opDist q (1 / 2) 3 := by
  refine ⟨rfl, rfl, ?_⟩
  intro rows opDist q
  rfl

/-- Real-valued vectors of the fixed embedding dimension, used to model the
exact semantics of pgvector's cosine-distance operator in the similarity
expression 1 - (embedding opDist query_embedding) of match_documents. -/
abbrev RVec : Type := EuclideanSpace ℝ (Fin EMBEDDING_DIM)

/-- d is the cosine distance between u and v: the defining equation
(1 - d) * (norm u * norm v) = inner u v, i.e. 1 - d is the cosine of the
angle between u and v.  Stated relationally so the development stays free of
noncomputable field operations. -/
def IsCosineDistance (u v : RVec) (d : ℝ) : Prop :=
  (1 - d) * (‖u‖ * ‖v‖) = (inner u v : ℝ)

/-- A concrete nonzero real vector of the embedding dimension: the all-ones
vector. -/
def sampleRVec : RVec :=
  (fun _ => 1 : Fin EMBEDDING_DIM → ℝ)

/-- The all-ones sample vector is nonzero. -/
theorem sampleRVec_ne_zero : sampleRVec ≠ 0 := by
  intro h
  have h1 : (1 : ℝ) = 0 :=
    congrFun (congrArg (fun x => (x : Fin EMBEDDING_DIM → ℝ)) h)
      (⟨0, by decide⟩ : Fin EMBEDDING_DIM)
  exact one_ne_zero h1

/-- Counterexample for C6: the claim requires only the query vector to be
nonzero, but the zero vector is storable in the vector(384) column, and for
a zero stored vector the cosine distance is not defined — the defining
equation degenerates to 0 = 0 and constrains d not at all.  Concretely, with
stored vector 0 and the nonzero all-ones query, d = 3 satisfies the
cosine-distance relation, yet the similarity 1 - 3 = -2 lies outside the
interval from -1 to 1. -/
theorem similarity_zero_vector_counterexample :
    sampleRVec ≠ 0 ∧
    IsCosineDistance 0 sampleRVec 3 ∧
    ¬ (-1 ≤ 1 - (3 : ℝ) ∧ 1 - (3 : ℝ) ≤ 1) := by
  refine ⟨sampleRVec_ne_zero, ?_, ?_⟩
  · unfold IsCosineDistance
    simp
  · intro h
    have := h.1
    norm_num at this

/-- C6 (amended): for every nonzero stored chunk vector and every nonzero
query vector, the similarity attached to a retrieved match — 1 minus the
cosine distance between the two vectors — lies in the interval from -1 to 1.
(The nonzero requirement on the stored vector is forced: cosine distance to
the zero vector is undefined.) -/
theorem similarity_in_unit_interval (u v : RVec) (d : ℝ)
    (hu : u ≠ 0) (hv : v ≠ 0) (hd : IsCosineDistance u v d) :
    -1 ≤ 1 - d ∧ 1 - d ≤ 1 := by
  have hupos : 0 < ‖u‖ := norm_pos_iff.mpr hu
  have hvpos : 0 < ‖v‖ := norm_pos_iff.mpr hv
  have habs : |(inner u v : ℝ)| ≤ ‖u‖ * ‖v‖ := abs_real_inner_le_norm u v
  have hb := abs_le.mp habs
  unfold IsCosineDistance at hd
  constructor
  · nlinarith [hb.1, mul_pos hupos hvpos]
  · nlinarith [hb.2, mul_pos hupos hvpos]

/-- Witness for C6 (amended): the sample vector is nonzero, its cosine
distance to itself is 0, and the resulting similarity 1 lies in the unit
interval. -/
theorem similarity_in_unit_interval_witness :
    (sampleRVec ≠ 0 ∧ IsCosineDistance sampleRVec sampleRVec 0) ∧
    (-1 ≤ 1 - (0 : ℝ) ∧ 1 - (0 : ℝ) ≤ 1) := by
  have hd : IsCosineDistance sampleRVec sampleRVec 0 := by
    unfold IsCosineDistance
    rw [real_inner_self_eq_norm_mul_norm]
    ring
  exact ⟨⟨sampleRVec_ne_zero, hd⟩,
    similarity_in_unit_interval sampleRVec sampleRVec 0
      sampleRVec_ne_zero sampleRVec_ne_zero hd⟩

/-- JavaScript truthiness for strings: the empty string is falsy, so
a || b evaluates to b when a is empty and to a otherwise. -/
def jsOr (a b : String) : String :=
  if a = "" then b else a

/-- JavaScript optional-chaining read of a possibly absent string field:
an absent field behaves as the falsy empty string. -/
def jsStr (o : Option String) : String :=
  o.getD ""

/-- Executable embedding of JavaScript String.prototype.trim: drop leading
and trailing whitespace characters. -/
def jsTrim (s : String) : String :=
  ⟨(((s.data.dropWhile Char.isWhitespace).reverse.dropWhile Char.isWhitespace).reverse)⟩

/-- The failure information available on an axios error in the catch block of
sendMessage (src, api helper): the HTTP status of the response when one
arrived (distinguishing, e.g., not-found from service-unavailable), the
optional response body fields data.detail and data.message, and the
transport-level error.message. -/
structure AxiosError where
  status : Option Nat
  detail : Option String
  dataMessage : Option String
  message : String

/-- What sendMessage throws: a plain JavaScript Error carrying only a
message string (new Error(errorMessage)). -/
structure ThrownError where
  message : String

/-- The error-message selection of sendMessage's catch block:
error.response?.data?.detail || error.response?.data?.message ||
error.message || the fixed fallback text. -/
def sendMessageErrorMessage (e : AxiosError) : String :=
  jsOr (jsOr (jsOr (jsStr e.detail) (jsStr e.dataMessage)) e.message)
    ("Failed to get response from server")

/-- The value sendMessage rethrows on any failure: a single generic Error
whose only payload is the selected message string. -/
def sendMessageFailure (e : AxiosError) : ThrownError :=
  ⟨sendMessageErrorMessage e⟩

/-- Counterexample for C8: two distinct failures — an HTTP 404 response (no
supporting documents route missing) and an HTTP 503 response (assistant
temporarily unavailable) — are rethrown by sendMessage as identical generic
Error values, so the caller does not receive a distinguishable error kind. -/
theorem sendMessage_error_kind_counterexample :
    sendMessageFailure ⟨some 404, none, none, ""⟩ =
      sendMessageFailure ⟨some 503, none, none, ""⟩ ∧
    (⟨some 404, none, none, ""⟩ : AxiosError) ≠ ⟨some 503, none, none, ""⟩ ∧
    (sendMessageFailure ⟨some 404, none, none, ""⟩).message =
      "Failed to get response from server" := by
  refine ⟨rfl, ?_, rfl⟩
  intro h
  have := congrArg AxiosError.status h
  simp at this

/-- C8 (amended): sendMessage collapses every failure into one generic Error;
the caller can distinguish failures only through the message string, which is
selected by the chain detail || data.message || error.message || fixed text:
the backend-supplied response detail whenever it is a non-empty string,
otherwise the non-empty data.message, otherwise the non-empty transport
message, otherwise the fixed generic text; and two failures whose selected
messages coincide are rethrown as identical Error values. -/
theorem sendMessage_error_message_spec :
    (∀ (e : AxiosError) (d : String), e.detail = some d → d ≠ "" →
      (sendMessageFailure e).message = d) ∧
    (∀ (e : AxiosError) (m : String), jsStr e.detail = "" →
      e.dataMessage = some m → m ≠ "" →
      (sendMessageFailure e).message = m) ∧
    (∀ e : AxiosError, jsStr e.detail = "" → jsStr e.dataMessage = "" →
      e.message ≠ "" → (sendMessageFailure e).message = e.message) ∧
    (∀ e : AxiosError, jsStr e.detail = "" → jsStr e.dataMessage = "" →
      e.message = "" →
      (sendMessageFailure e).message = "Failed to get response from server") ∧
    (∀ e1 e2 : AxiosError,
      sendMessageErrorMessage e1 = sendMessageErrorMessage e2 →
      sendMessageFailure e1 = sendMessageFailure e2) := by
  refine ⟨?_, ?_, ?_, ?_, ?_⟩
  · intro e d hd hne
    simp [sendMessageFailure, sendMessageErrorMessage, jsOr, jsStr, hd, hne]
  · intro e m ha hm hne
    simp only [jsStr] at ha
    simp [sendMessageFailure, sendMessageErrorMessage, jsOr, jsStr, ha, hm, hne]
  · intro e ha hb hne
    simp only [jsStr] at ha hb
    simp [sendMessageFailure, sendMessageErrorMessage, jsOr, jsStr, ha, hb, hne]
  · intro e ha hb hc
    simp only [jsStr] at ha hb
    simp [sendMessageFailure, sendMessageErrorMessage, jsOr, jsStr, ha, hb, hc]
  · intro e1 e2 h
    simp [sendMessageFailure, h]

/-- Witness for C8 (amended): one concrete failure per branch of the
selection chain — a non-empty backend detail is rethrown verbatim; with an
empty detail a non-empty data.message is used; with both empty the transport
message is used; with all three empty the fixed generic text is used. -/
theorem sendMessage_error_message_spec_witness :
    ((⟨some 404, some ("No documents found"), none, ""⟩ : AxiosError).detail =
        some ("No documents found") ∧ ("No documents found" : String) ≠ "" ∧
      (sendMessageFailure ⟨some 404, some ("No documents found"), none, ""⟩).message =
        "No documents found") ∧
    (jsStr (⟨some 500, none, some ("backend error"), ""⟩ : AxiosError).detail = "" ∧
      (⟨some 500, none, some ("backend error"), ""⟩ : AxiosError).dataMessage =
        some ("backend error") ∧ ("backend error" : String) ≠ "" ∧
      (sendMessageFailure ⟨some 500, none, some ("backend error"), ""⟩).message =
        "backend error") ∧
    (jsStr (⟨none, none, none, "Network Error"⟩ : AxiosError).detail = "" ∧
      jsStr (⟨none, none, none, "Network Error"⟩ : AxiosError).dataMessage = "" ∧
      (⟨none, none, none, "Network Error"⟩ : AxiosError).message ≠ "" ∧
      (sendMessageFailure ⟨none, none, none, "Network Error"⟩).message =
        "Network Error") ∧
    (jsStr (⟨some 503, none, none, ""⟩ : AxiosError).detail = "" ∧
      jsStr (⟨some 503, none, none, ""⟩ : AxiosError).dataMessage = "" ∧
      (⟨some 503, none, none, ""⟩ : AxiosError).message = "" ∧
      (sendMessageFailure ⟨some 503, none, none, ""⟩).message =
        "Failed to get response from server") := by
  refine ⟨⟨rfl, by decide, ?_⟩, ⟨rfl, rfl, by decide, ?_⟩,
    ⟨rfl, rfl, by decide, ?_⟩, ⟨rfl, rfl, rfl, ?_⟩⟩
  · exact sendMessage_error_message_spec.1 _ _ rfl (by decide)
  · exact sendMessage_error_message_spec.2.1 _ _ rfl rfl (by decide)
  · exact sendMessage_error_message_spec.2.2.1 _ rfl rfl (by decide)
  · exact sendMessage_error_message_spec.2.2.2.1 _ rfl rfl rfl

/-- One entry of the chat history of ChatInterface: role, content, the
sources attached to assistant responses, and the isError flag (absent on
ordinary messages, modelled as false). -/
structure ChatMsg where
  role : String
  content : String
  sources : List String
  isError : Bool

/-- The state handled by ChatInterface: the messages list, the inputText
of the input box, the loading flag, and the error banner text. -/
structure ChatState where
  messages : List ChatMsg
  inputText : String
  loading : Bool
  error : Option String

/-- The JSON body of a successful /api/chat response as used by handleSend:
response.answer and the possibly absent response.sources. -/
structure ApiResponse where
  answer : String
  sources : Option (List String)

/-- Result of one invocation of handleSend: the state after all setState
calls have settled, and whether the sendMessage API call was made.  The
function is total: the try/catch/finally of the source converts a rejected
call into state, so no exception escapes the handler. -/
structure SendResult where
  state : ChatState
  apiCalled : Bool

/-- Shallow embedding of handleSend of the ChatInterface component.  The
source: question = inputText.trim(); if (!question || loading) return;
setError(null); append the user message, clear the input, set loading;
await sendMessage(question); on success append the assistant message with
response.sources || []; on rejection set the error banner to err.message ||
a fallback, and append an error-flagged assistant message whose content is
"Sorry, I encountered an error: " followed by err.message || a fallback;
finally setLoading(false).  The outcome of the awaited call is passed in
as api. -/
def handleSend (s : ChatState) (api : Except ThrownError ApiResponse) :
    SendResult :=
  let question := jsTrim s.inputText
  if question = "" ∨ s.loading = true then
    ⟨s, false⟩
  else
    let afterUser : List ChatMsg := s.messages ++ [⟨"user", question, [], false⟩]
    match api with
    | Except.ok response =>
        ⟨⟨afterUser ++ [⟨"assistant", response.answer, response.sources.getD [], false⟩],
          "", false, none⟩, true⟩
    | Except.error err =>
        ⟨⟨afterUser ++ [⟨"assistant",
            ("Sorry, I encountered an error: ") ++
              jsOr err.message
                ("Failed to get response. Please check your connection and try again."),
            [], true⟩],
          "", false,
          some (jsOr err.message ("Failed to get response. Please try again."))⟩,
          true⟩

/-- Counterexample for C10: invoking the send handler with the non-blank
input "hi" while a request is already in flight (loading = true) appends no
message at all — not two — and leaves the loading flag true, because of the
early-return guard if (!question || loading). -/
theorem handleSend_claim_counterexample :
    handleSend ⟨[], "hi", true, none⟩ (Except.ok ⟨"ans", none⟩) =
      ⟨⟨[], "hi", true, none⟩, false⟩ ∧
    (handleSend ⟨[], "hi", true, none⟩
        (Except.ok ⟨"ans", none⟩)).state.messages.length ≠
      ([] : List ChatMsg).length + 2 := by
  constructor
  · simp [handleSend]
  · simp [handleSend]

/-- C10 (amended): for every invocation of the send handler with a non-blank
input while no request is in flight, exactly two messages are appended — the
trimmed user question followed by one assistant message — and the loading
flag is false afterwards, whether the API call resolves or rejects; a
rejected call is converted into an error-flagged assistant message (no
exception escapes: handleSend is total). -/
theorem handleSend_spec (s : ChatState) (api : Except ThrownError ApiResponse)
    (hq : jsTrim s.inputText ≠ "") (hl : s.loading = false) :
    (handleSend s api).state.messages.length = s.messages.length + 2 ∧
    (handleSend s api).state.loading = false ∧
    (∀ r, api = Except.ok r →
      (handleSend s api).state.messages =
        s.messages ++ [⟨"user", jsTrim s.inputText, [], false⟩,
          ⟨"assistant", r.answer, r.sources.getD [], false⟩]) ∧
    (∀ e, api = Except.error e →
      (handleSend s api).state.messages =
        s.messages ++ [⟨"user", jsTrim s.inputText, [], false⟩,
          ⟨"assistant",
            ("Sorry, I encountered an error: ") ++
              jsOr e.message
                ("Failed to get response. Please check your connection and try again."),
            [], true⟩]) := by
  have hcond : ¬ (jsTrim s.inputText = "" ∨ s.loading = true) := by
    rw [hl]
    simp [hq]
  cases api with
  | ok r =>
      refine ⟨?_, ?_, ?_, ?_⟩
      · simp [handleSend, hcond]
      · simp [handleSend, hcond]
      · intro r' hr'
        cases hr'
        simp [handleSend, hcond]
      · intro e he
        cases he
  | error e =>
      refine ⟨?_, ?_, ?_, ?_⟩
      · simp [handleSend, hcond]
      · simp [handleSend, hcond]
      · intro r' hr'
        cases hr'
      · intro e' he'
        cases he'
        simp [handleSend, hcond]

/-- Witness for C10 (amended): a concrete rejected call at a concrete
non-blank, non-loading state. -/
theorem handleSend_spec_witness :
    (jsTrim " hello " ≠ "" ∧
      (⟨[], " hello ", false, none⟩ : ChatState).loading = false) ∧
    ((handleSend ⟨[], " hello ", false, none⟩
        (Except.error ⟨"boom"⟩)).state.messages.length =
      ([] : List ChatMsg).length + 2 ∧
    (handleSend ⟨[], " hello ", false, none⟩
        (Except.error ⟨"boom"⟩)).state.loading = false ∧
    (∀ r : ApiResponse,
      (Except.error ⟨"boom"⟩ : Except ThrownError ApiResponse) = Except.ok r →
      (handleSend ⟨[], " hello ", false, none⟩
          (Except.error ⟨"boom"⟩)).state.messages =
        [] ++ [⟨"user", jsTrim " hello ", [], false⟩,
          ⟨"assistant", r.answer, r.sources.getD [], false⟩]) ∧
    (∀ e, (Except.error ⟨"boom"⟩ : Except ThrownError ApiResponse) = Except.error e →
      (handleSend ⟨[], " hello ", false, none⟩
          (Except.error ⟨"boom"⟩)).state.messages =
        [] ++ [⟨"user", jsTrim " hello ", [], false⟩,
          ⟨"assistant",
            ("Sorry, I encountered an error: ") ++
              jsOr e.message
                ("Failed to get response. Please check your connection and try again."),
            [], true⟩])) := by
  have hq : jsTrim " hello " ≠ "" := by decide
  exact ⟨⟨hq, rfl⟩, handleSend_spec ⟨[], " hello ", false, none⟩
    (Except.error ⟨"boom"⟩) hq rfl⟩

/-- The error taxonomy of the query path, per the spec's §7. -/
inductive QueryError
  | invalidInput
  | indexUnavailable
  | embeddingFailure
  | bothModelsUnavailable

/-- The answer payload of the query entry point: answer text and citation
sources. -/
structure AnswerOut where
  answer : String
  sources : List String

/-- One run of the retrieval-plus-generation pipeline observed from the
outside: how many network calls (embedding, vector search, model
completions) were made, and the outcome. -/
structure QueryTrace where
  networkCalls : Nat
  result : Except QueryError AnswerOut

/-- Modelled from the spec: the Query Orchestrator answer_question of the
backend (main.py), which is not under src/ — only the SQL contract, the
docs and its frontend callers are.  Per §4.7 it validates that the question
is non-empty, failing with InvalidInputError otherwise, and only then calls
Retriever and Answer Generator; the validation itself makes no network
call, so a rejected empty question performs no embedding, search, or model
call.  The downstream pipeline is the parameter. -/
def answer_question (pipeline : String → QueryTrace) (question : String) :
    QueryTrace :=
  if jsTrim question = "" then ⟨0, Except.error QueryError.invalidInput⟩
  else pipeline question

/-- C7: for every question that is empty or whitespace-only after trimming,
the query entry point fails with InvalidInputError and performs zero network
calls — no embedding, search, or model call; likewise the frontend send
handler, whose guard is the cited handleSend code, makes no API call for
such input. -/
theorem answer_question_invalid_input (pipeline : String → QueryTrace)
    (question : String) (h : jsTrim question = "") :
    (answer_question pipeline question).networkCalls = 0 ∧
    (answer_question pipeline question).result =
      Except.error QueryError.invalidInput ∧
    (∀ (s : ChatState) (api : Except ThrownError ApiResponse),
      s.inputText = question → (handleSend s api).apiCalled = false) := by
  refine ⟨?_, ?_, ?_⟩
  · simp [answer_question, h]
  · simp [answer_question, h]
  · intro s api hs
    have : jsTrim s.inputText = "" := by
      rw [hs, h]
    simp [handleSend, this]

/-- Witness for C7: the empty question, against a pipeline that would make
three network calls if it were reached. -/
theorem answer_question_invalid_input_witness :
    jsTrim "" = "" ∧
    ((answer_question (fun _ => ⟨3, Except.ok ⟨"ok", []⟩⟩) "").networkCalls = 0 ∧
    (answer_question (fun _ => ⟨3, Except.ok ⟨"ok", []⟩⟩) "").result =
      Except.error QueryError.invalidInput ∧
    (∀ (s : ChatState) (api : Except ThrownError ApiResponse),
      s.inputText = "" → (handleSend s api).apiCalled = false)) := by
  have h : jsTrim "" = "" := by decide
  exact ⟨h, answer_question_invalid_input (fun _ => ⟨3, Except.ok ⟨"ok", []⟩⟩) "" h⟩

/-- Which completion provider produced the answer. -/
inductive ModelId
  | primary
  | fallback

/-- Outcome of one completion call to one provider: the completion text, or
a failure (timeout, rate limit, non-2xx, malformed response). -/
inductive CallOutcome
  | success (text : String)
  | failure

/-- How many times each provider was invoked during one generate run. -/
structure GenAttempts where
  primaryCalls : Nat
  fallbackCalls : Nat

/-- Terminal state of the generate state machine: DONE with the answer and
the model that produced it, or FAILED surfaced as BothModelsUnavailableError
— which by construction carries no partial answer. -/
inductive GenResult
  | done (answer : String) (model_used : ModelId)
  | bothModelsUnavailable

/-- Modelled from the spec: generate of the Answer Generator (backend
main.py), which is not under src/.  Per §4.6 the model-call state machine is
TRY_PRIMARY → DONE(primary) on success; TRY_PRIMARY → TRY_FALLBACK on
failure; TRY_FALLBACK → DONE(fallback) on success; TRY_FALLBACK → FAILED
(BothModelsUnavailableError) on failure, with no retries within a single
model.  The outcomes of the two providers are the parameters. -/
def generate (primaryOutcome fallbackOutcome : CallOutcome) :
    GenAttempts × GenResult :=
  match primaryOutcome with
  | CallOutcome.success t => (⟨1, 0⟩, GenResult.done t ModelId.primary)
  | CallOutcome.failure =>
    match fallbackOutcome with
    | CallOutcome.success t => (⟨1, 1⟩, GenResult.done t ModelId.fallback)
    | CallOutcome.failure => (⟨1, 1⟩, GenResult.bothModelsUnavailable)

/-- C3: if the primary completion call fails, generate calls the fallback
exactly once; on fallback success it returns a result with model_used =
fallback, and if both fail the run terminates as BothModelsUnavailable, a
terminal state that carries no partial answer. -/
theorem generate_failover :
    (∀ fb : CallOutcome,
      (generate CallOutcome.failure fb).1.fallbackCalls = 1) ∧
    (∀ t : String,
      generate CallOutcome.failure (CallOutcome.success t) =
        (⟨1, 1⟩, GenResult.done t ModelId.fallback)) ∧
    generate CallOutcome.failure CallOutcome.failure =
      (⟨1, 1⟩, GenResult.bothModelsUnavailable) ∧
    (∀ t m, (generate CallOutcome.failure CallOutcome.failure).2 ≠
      GenResult.done t m) := by
  refine ⟨?_, ?_, rfl, ?_⟩
  · intro fb
    cases fb <;> rfl
  · intro t
    rfl
  · intro t m h
    cases h

/-- Modelled from the spec: the number of chunks the Chunker produces for a
text of n words (the chunker of the backend pdf_processor.py is not under
src/).  Per §8, it is ceil((n - overlap) / (chunk_size - overlap)) when
n > chunk_size and 1 otherwise (in natural-number arithmetic,
ceil(a / b) = (a + b - 1) / b). -/
def numChunks (n chunkSize overlap : Nat) : Nat :=
  if n ≤ chunkSize then 1
  else (n - overlap + (chunkSize - overlap) - 1) / (chunkSize - overlap)

/-- Modelled from the spec: the Chunker of the backend (pdf_processor.py),
which is not under src/.  Per §3 and §4.1 the text is split on whitespace
into a word sequence and chunk i starts at word offset
i * (chunk_size - overlap) and spans chunk_size words (the last chunk may be
shorter); it operates here directly on the word sequence. -/
def chunkWords (ws : List String) (chunkSize overlap : Nat) :
    List (List String) :=
  (List.range (numChunks ws.length chunkSize overlap)).map
    (fun i => (ws.drop (i * (chunkSize - overlap))).take chunkSize)

/-- Counterexample for C2: on the empty text (zero words) the chunker yields
exactly one chunk — as the spec's "a source shorter than chunk_size yields
exactly one chunk" dictates — and that chunk is empty, so the claim's
"every chunk is non-empty" fails for N = 0. -/
theorem chunkWords_empty_text_counterexample :
    chunkWords ([] : List String) 500 50 = [[]] ∧
    ¬ (∀ c ∈ chunkWords ([] : List String) 500 50, c ≠ []) := by
  have he : chunkWords ([] : List String) 500 50 = [[]] := by decide
  exact ⟨he, fun h => (h [] (he ▸ List.mem_singleton_self [])) rfl⟩

/-- Length of the chunk list equals the modelled chunk count. -/
theorem chunkWords_length (ws : List String) (cs ov : Nat) :
    (chunkWords ws cs ov).length = numChunks ws.length cs ov := by
  simp [chunkWords]

/-- The i-th chunk is the chunk_size-word window starting at word offset
i * (chunk_size - overlap). -/
theorem chunkWords_getD (ws : List String) (cs ov : Nat) (i : Nat)
    (hi : i < numChunks ws.length cs ov) :
    (chunkWords ws cs ov).getD i [] = (ws.drop (i * (cs - ov))).take cs := by
  simp [chunkWords, List.getD_eq_getElem?_getD, List.getElem?_map,
    List.getElem?_range, hi]

/-- C2 (amended): for any text with at least one word, chunked with
chunk_size = 500 and overlap = 50, the chunker produces
ceil((N - 50) / 450) chunks when N > 500 and exactly one chunk otherwise
(in natural-number arithmetic ceil((N - 50) / 450) = (N - 50 + 449) / 450);
chunk i starts at word offset i * 450; every chunk is non-empty; and
consecutive chunks share exactly 50 words — the trailing 50 words of each
non-final chunk equal the leading 50 words of its successor. -/
theorem chunkWords_spec (ws : List String) (hne : ws ≠ []) :
    ((ws.length ≤ 500 → (chunkWords ws 500 50).length = 1) ∧
     (500 < ws.length →
       (chunkWords ws 500 50).length = (ws.length - 50 + 449) / 450)) ∧
    (∀ i, i < (chunkWords ws 500 50).length →
      (chunkWords ws 500 50).getD i [] = (ws.drop (i * 450)).take 500) ∧
    (∀ c ∈ chunkWords ws 500 50, c ≠ []) ∧
    (∀ i, i + 1 < (chunkWords ws 500 50).length →
      (((chunkWords ws 500 50).getD i []).drop 450).length = 50 ∧
      ((chunkWords ws 500 50).getD i []).drop 450 =
        ((chunkWords ws 500 50).getD (i + 1) []).take 50) := by
  have hn : 0 < ws.length := List.length_pos.mpr hne
  have hlen := chunkWords_length ws 500 50
  have hstep : (500 : Nat) - 50 = 450 := by norm_num
  have hdm : ((ws.length - 50 + 449) / 450) * 450 ≤ ws.length - 50 + 449 :=
    Nat.div_mul_le_self _ _
  have hkval : 500 < ws.length →
      numChunks ws.length 500 50 = (ws.length - 50 + 449) / 450 := by
    intro hbig
    simp only [numChunks]
    rw [if_neg (by omega)]
    norm_num
  have h2 : 500 < ws.length → 2 ≤ (ws.length - 50 + 449) / 450 := by
    intro hbig
    rw [Nat.le_div_iff_mul_le (by norm_num)]
    omega
  have hstart : ∀ i, i < numChunks ws.length 500 50 → i * 450 < ws.length := by
    intro i hi
    by_cases hbig : 500 < ws.length
    · rw [hkval hbig] at hi
      omega
    · have : numChunks ws.length 500 50 = 1 := by
        simp [numChunks]
        omega
      rw [this] at hi
      interval_cases i
      omega
  refine ⟨⟨?_, ?_⟩, ?_, ?_, ?_⟩
  · intro hsmall
    rw [hlen]
    simp [numChunks, hsmall]
  · intro hbig
    rw [hlen, hkval hbig]
  · intro i hi
    rw [hlen] at hi
    rw [chunkWords_getD ws 500 50 i hi, hstep]
  · intro c hc
    rcases (by simpa [chunkWords] using hc :
        ∃ i < numChunks ws.length 500 50,
          List.take 500 (List.drop (i * 450) ws) = c) with ⟨i, hi', rfl⟩
    have := hstart i hi'
    refine List.length_pos.mp ?_
    simp only [List.length_take, List.length_drop]
    omega
  · intro i hip
    rw [hlen] at hip
    have hbig : 500 < ws.length := by
      by_contra hsmall
      have : numChunks ws.length 500 50 = 1 := by
        simp [numChunks]
        omega
      omega
    have hk := hkval hbig
    have h2' := h2 hbig
    rw [hk] at hip
    have hfull : i * 450 + 500 < ws.length := by omega
    have hgi := chunkWords_getD ws 500 50 i (by omega)
    have hgi1 := chunkWords_getD ws 500 50 (i + 1) (by omega)
    rw [hstep] at hgi hgi1
    constructor
    · rw [hgi]
      simp only [List.length_drop, List.length_take]
      omega
    · rw [hgi, hgi1]
      have h450 : i * 450 + 450 = (i + 1) * 450 := by ring
      rw [List.drop_take, List.drop_drop, h450, List.take_take]
      norm_num

/-- Witness for C2 (amended): the one-word text yields one non-empty chunk. -/
theorem chunkWords_spec_witness :
    (["a"] : List String) ≠ [] ∧ (∀ c ∈ chunkWords ["a"] 500 50, c ≠ []) := by
  have hne : (["a"] : List String) ≠ [] := by decide
  exact ⟨hne, (chunkWords_spec ["a"] hne).2.2.1⟩
